import Mathlib

/-!
# JobHunt user controller

A shallow embedding of `backend/controllers/user.controller.js`: the five request
handlers `googleAuth`, `register`, `login`, `logout` and `updateProfile`, run against
an explicit user collection and an explicit record of what each external call
(database, bcrypt, jsonwebtoken, Google token verification, data-URI conversion,
Cloudinary upload) returns or throws.

Request fields are optional strings: `none` is an absent (`undefined`) field.
-/

set_option autoImplicit false

namespace JobHunt

/-! ## Data model -/

/-- A stored scalar that is either a string or a number (`phoneNumber` is written as the
number `1234567890` by `googleAuth` and as a request string by the other handlers). -/
inductive JsVal where
  | str (s : String)
  | num (n : Int)
  deriving DecidableEq, Repr

/-- The `profile` sub-document of a user, with the fields the controller reads or writes. -/
structure Profile where
  bio : Option String
  skills : List String
  resume : Option String
  resumeOriginalName : Option String
  profilePhoto : Option String
  deriving DecidableEq, Repr

/-- A user document of the `User` collection. -/
structure User where
  _id : Nat
  fullname : String
  email : String
  phoneNumber : JsVal
  password : String
  role : String
  profile : Profile
  deriving DecidableEq, Repr

/-- The `User` collection, in insertion order. -/
abbrev Store := List User

/-- The argument of `User.create`: the fields the controller supplies. -/
structure NewUser where
  fullname : String
  email : String
  phoneNumber : JsVal
  password : String
  role : String
  profilePhoto : Option String
  deriving DecidableEq, Repr

/-- An uploaded file (`req.file`); only `originalname` is read by the controller. -/
structure File where
  originalname : String
  deriving DecidableEq, Repr

/-- The object returned by `getDataUri`; `content` may be missing. -/
structure DataUri where
  content : Option String
  deriving DecidableEq, Repr

/-- The claims of a verified Google identity token (`ticket.getPayload()`). -/
structure Payload where
  email : Option String
  name : Option String
  picture : Option String
  deriving DecidableEq, Repr

/-- The database calls the controller makes. -/
inductive DbCall where
  | findOne
  | findById
  | create
  | save
  deriving DecidableEq, Repr

/-- The outcome of every external call a handler can make. An `Except.error` is a thrown
exception (a rejected promise). -/
structure Env where
  /-- Outcome of `oauth2Client.verifyIdToken` followed by `getPayload`. -/
  verifyIdToken : Option String → Except String Payload
  /-- Outcome of `bcrypt.hash(password, 10)`. -/
  hash : String → Except String String
  /-- Outcome of `bcrypt.compare(password, stored)`. -/
  compare : String → String → Except String Bool
  /-- Outcome of `jwt.sign` on the user id with the configured key, expiring in one day. -/
  sign : Nat → Except String String
  /-- Outcome of `getDataUri(file)`. -/
  getDataUri : Option File → Except String (Option DataUri)
  /-- Outcome of `cloudinary.uploader.upload(content)`: the `secure_url` of the result. -/
  upload : Option String → Except String (Option String)
  /-- The value of `crypto.randomBytes(12).toString("hex")`. -/
  randomPassword : String
  /-- Whether the given database call throws. -/
  dbThrows : DbCall → Bool
  /-- Whether `process.env.NODE_ENV === "production"`. -/
  production : Bool

/-! ## Responses -/

/-- The value of one field of a user object in a response body. -/
inductive FieldVal where
  | id (n : Nat)
  | str (s : String)
  | val (v : JsVal)
  | profile (p : Profile)
  deriving DecidableEq, Repr

/-- The value of one key of a JSON response body. -/
inductive BodyVal where
  | bool (b : Bool)
  | str (s : String)
  | user (fields : List (String × FieldVal))
  deriving DecidableEq, Repr

/-- The value of one cookie option. -/
inductive OptVal where
  | num (n : Nat)
  | bool (b : Bool)
  | str (s : String)
  deriving DecidableEq, Repr

/-- A `res.cookie(name, value, options)` call; `options` keeps the keys as written. -/
structure Cookie where
  name : String
  value : String
  options : List (String × OptVal)
  deriving DecidableEq, Repr

/-- A response sent with `res.status(..).cookie(..).json(..)`. -/
structure Response where
  status : Nat
  cookies : List Cookie
  body : List (String × BodyVal)
  deriving DecidableEq, Repr

/-- What a handler run leaves behind: the collection afterwards and the response sent,
`none` when the handler finishes without sending one. -/
structure Outcome where
  store : Store
  response : Option Response
  deriving DecidableEq, Repr

/-! ## JavaScript helpers -/

/-- A field that passes a JavaScript truthiness test (present and not `""`), with its value. -/
def truthy : Option String → Option String
  | some s => if s = "" then none else some s
  | none => none

/-- The code points `String.prototype.trim` removes (WhiteSpace and LineTerminator). -/
def isJsWhiteSpace (c : Char) : Bool :=
  let n := c.toNat
  n = 0x09 || n = 0x0A || n = 0x0B || n = 0x0C || n = 0x0D || n = 0x20 || n = 0xA0 ||
  n = 0x1680 || (0x2000 ≤ n && n ≤ 0x200A) || n = 0x2028 || n = 0x2029 || n = 0x202F ||
  n = 0x205F || n = 0x3000 || n = 0xFEFF

/-- The characters of `s.trim()`. -/
def trimChars (cs : List Char) : List Char :=
  ((cs.dropWhile isJsWhiteSpace).reverse.dropWhile isJsWhiteSpace).reverse

/-- The JavaScript `s.trim()`. -/
def jsTrim (s : String) : String := ⟨trimChars s.data⟩

/-- The pieces of `split(sep)` on a list of characters; the empty list gives one empty piece. -/
def splitChars (sep : Char) : List Char → List (List Char)
  | [] => [[]]
  | c :: cs =>
    if c = sep then [] :: splitChars sep cs
    else
      match splitChars sep cs with
      | [] => [[c]]
      | p :: ps => (c :: p) :: ps

/-- The JavaScript `s.split(",")`. -/
def jsSplitComma (s : String) : List String :=
  (splitChars ',' s.data).map String.mk

/-- The expression `skills.split(",").map((s) => s.trim())` of `updateProfile`. -/
def parseSkills (skills : String) : List String :=
  (jsSplitComma skills).map jsTrim

/-! ## The user collection -/

/-- An identifier not used by any stored document. -/
def nextId (store : Store) : Nat :=
  (store.map fun u => u._id).foldr max 0 + 1

/-- The document `User.findOne` by email resolves to when the call returns. -/
def lookupEmail (store : Store) (email : String) : Option User :=
  store.find? fun u => u.email == email

/-- The document `User.findById(id)` resolves to when the call returns. -/
def lookupId (store : Store) (id : Nat) : Option User :=
  store.find? fun u => u._id == id

/-- The collection after `user.save()` has written `user` over the document with its id. -/
def writeBack (store : Store) (user : User) : Store :=
  store.map fun v => if v._id = user._id then user else v

/-- The call `User.findOne` with an email filter. -/
def User.findOne (env : Env) (store : Store) (email : String) : Except String (Option User) :=
  if env.dbThrows .findOne then .error "findOne" else .ok (lookupEmail store email)

/-- The call `User.findById(id)`. -/
def User.findById (env : Env) (store : Store) (id : Nat) : Except String (Option User) :=
  if env.dbThrows .findById then .error "findById" else .ok (lookupId store id)

/-- The call `User.create(doc)`: the new document gets a fresh id and an empty profile apart
from the photo. -/
def User.create (env : Env) (store : Store) (doc : NewUser) : Except String (Store × User) :=
  if env.dbThrows .create then .error "create"
  else
    let user : User :=
      { _id := nextId store
        fullname := doc.fullname
        email := doc.email
        phoneNumber := doc.phoneNumber
        password := doc.password
        role := doc.role
        profile :=
          { bio := none, skills := [], resume := none, resumeOriginalName := none,
            profilePhoto := doc.profilePhoto } }
    .ok (store ++ [user], user)

/-- The call `user.save()`. -/
def User.save (env : Env) (store : Store) (user : User) : Except String Store :=
  if env.dbThrows .save then .error "save" else .ok (writeBack store user)

/-! ## Requests -/

/-- The body of `POST /google`. -/
structure GoogleReq where
  token : Option String
  role : Option String
  deriving DecidableEq, Repr

/-- The form of `POST /register`. -/
structure RegisterReq where
  fullname : Option String
  email : Option String
  phoneNumber : Option String
  password : Option String
  role : Option String
  file : Option File
  deriving DecidableEq, Repr

/-- The body of `POST /login`. -/
structure LoginReq where
  email : Option String
  password : Option String
  role : Option String
  deriving DecidableEq, Repr

/-- The form of the profile update, with the authenticated user id `req.id`. -/
structure UpdateReq where
  id : Nat
  fullname : Option String
  email : Option String
  phoneNumber : Option String
  bio : Option String
  skills : Option String
  password : Option String
  file : Option File
  deriving DecidableEq, Repr

/-! ## Response builders -/

/-- The call `res.status(code).json(body)` with no cookie. -/
def jsonResponse (code : Nat) (body : List (String × BodyVal)) : Response :=
  { status := code, cookies := [], body := body }

/-- The six-field user object that `login` and `updateProfile` build by hand. -/
def userProjection (u : User) : List (String × FieldVal) :=
  [("_id", .id u._id), ("fullname", .str u.fullname), ("email", .str u.email),
   ("phoneNumber", .val u.phoneNumber), ("role", .str u.role), ("profile", .profile u.profile)]

/-- The whole stored document, as `googleAuth` sends it. -/
def userDocument (u : User) : List (String × FieldVal) :=
  [("_id", .id u._id), ("fullname", .str u.fullname), ("email", .str u.email),
   ("phoneNumber", .val u.phoneNumber), ("password", .str u.password), ("role", .str u.role),
   ("profile", .profile u.profile)]

/-- The cookie options written in `login`. -/
def loginCookieOptions : List (String × OptVal) :=
  [("maxAge", .num (1 * 24 * 60 * 60 * 1000)), ("httpsOnly", .bool true),
   ("sameSite", .str "strict")]

/-- The cookie options written in `googleAuth`. -/
def googleCookieOptions (env : Env) : List (String × OptVal) :=
  [("maxAge", .num (24 * 60 * 60 * 1000)), ("httpOnly", .bool true),
   ("sameSite", .str "strict"), ("secure", .bool env.production)]

/-! ## Handlers -/

/-- The `catch` block of `googleAuth`. -/
def googleAuthCaught (store : Store) : Outcome :=
  { store := store
    response := some (jsonResponse 500
      [("success", .bool false), ("message", .str "Google login failed.")]) }

/-- The tail of `googleAuth` once `user` is resolved: sign a token, set the cookie, reply. -/
def googleAuthIssue (env : Env) (store : Store) (user : User) : Outcome :=
  match env.sign user._id with
  | .error _ => googleAuthCaught store
  | .ok jwtToken =>
    { store := store
      response := some
        { status := 200
          cookies := [{ name := "token", value := jwtToken, options := googleCookieOptions env }]
          body := [("message", .str ("Welcome " ++ user.fullname)),
                   ("user", .user (userDocument user)), ("success", .bool true)] } }

/-- The handler `googleAuth`. -/
def googleAuth (env : Env) (store : Store) (req : GoogleReq) : Outcome :=
  match env.verifyIdToken req.token with
  | .error _ => googleAuthCaught store
  | .ok payload =>
    match truthy payload.email, truthy payload.name with
    | some email, some name =>
      match User.findOne env store email with
      | .error _ => googleAuthCaught store
      | .ok (some user) =>
        if some user.role ≠ req.role then
          { store := store
            response := some (jsonResponse 400
              [("success", .bool false),
               ("message", .str "User already exists but with other role.")]) }
        else googleAuthIssue env store user
      | .ok none =>
        match env.hash env.randomPassword with
        | .error _ => googleAuthCaught store
        | .ok hashedPassword =>
          match User.create env store
              { fullname := name, email := email, phoneNumber := .num 1234567890,
                password := hashedPassword, role := (truthy req.role).getD "student",
                profilePhoto := payload.picture } with
          | .error _ => googleAuthCaught store
          | .ok (store', user) => googleAuthIssue env store' user
    | _, _ =>
      { store := store
        response := some (jsonResponse 400
          [("success", .bool false), ("message", .str "Incomplete Google profile.")]) }

/-- The `catch` block of `register`, `login` and `logout`: the error is logged and nothing
is sent. -/
def loggedOnly (store : Store) : Outcome :=
  { store := store, response := none }

/-- The reply `Something is missing` of `register` and `login`. -/
def somethingMissing : Response :=
  jsonResponse 400 [("message", .str "Something is missing"), ("success", .bool false)]

/-- The handler `register`. -/
def register (env : Env) (store : Store) (req : RegisterReq) : Outcome :=
  match truthy req.fullname, truthy req.email, truthy req.phoneNumber, truthy req.password,
      truthy req.role with
  | some fullname, some email, some phoneNumber, some password, some role =>
    match env.getDataUri req.file with
    | .error _ => loggedOnly store
    | .ok none => loggedOnly store
    | .ok (some fileUri) =>
      match env.upload fileUri.content with
      | .error _ => loggedOnly store
      | .ok secureUrl =>
        match User.findOne env store email with
        | .error _ => loggedOnly store
        | .ok (some _) =>
          { store := store
            response := some (jsonResponse 400
              [("message", .str "User already exist with this email."),
               ("success", .bool false)]) }
        | .ok none =>
          match env.hash password with
          | .error _ => loggedOnly store
          | .ok hashedPassword =>
            match User.create env store
                { fullname := fullname, email := email, phoneNumber := .str phoneNumber,
                  password := hashedPassword, role := role, profilePhoto := secureUrl } with
            | .error _ => loggedOnly store
            | .ok (store', _) =>
              { store := store'
                response := some (jsonResponse 201
                  [("message", .str "Account created successfully."),
                   ("success", .bool true)]) }
  | _, _, _, _, _ => { store := store, response := some somethingMissing }

/-- The reply `Incorrect email or password.` of `login`. -/
def incorrectCredentials : Response :=
  jsonResponse 400 [("message", .str "Incorrect email or password."), ("success", .bool false)]

/-- The handler `login`. -/
def login (env : Env) (store : Store) (req : LoginReq) : Outcome :=
  match truthy req.email, truthy req.password, truthy req.role with
  | some email, some password, some role =>
    match User.findOne env store email with
    | .error _ => loggedOnly store
    | .ok none => { store := store, response := some incorrectCredentials }
    | .ok (some user) =>
      match env.compare password user.password with
      | .error _ => loggedOnly store
      | .ok false => { store := store, response := some incorrectCredentials }
      | .ok true =>
        if role ≠ user.role then
          { store := store
            response := some (jsonResponse 400
              [("message", .str "Account doesn't exist with current role."),
               ("success", .bool false)]) }
        else
          match env.sign user._id with
          | .error _ => loggedOnly store
          | .ok token =>
            { store := store
              response := some
                { status := 200
                  cookies := [{ name := "token", value := token, options := loginCookieOptions }]
                  body := [("message", .str ("Welcome back " ++ user.fullname)),
                           ("user", .user (userProjection user)), ("success", .bool true)] } }
  | _, _, _ => { store := store, response := some somethingMissing }

/-- The handler `logout`. -/
def logout (store : Store) : Outcome :=
  { store := store
    response := some
      { status := 200
        cookies := [{ name := "token", value := "", options := [("maxAge", .num 0)] }]
        body := [("message", .str "Logged out successfully."), ("success", .bool true)] } }

/-- The outer `catch` block of `updateProfile`. -/
def serverError (store : Store) : Outcome :=
  { store := store
    response := some (jsonResponse 500
      [("success", .bool false), ("message", .str "Server error")]) }

/-- The assignments of `updateProfile` that need no external call: each of fullname, email,
phoneNumber, bio and skills overwrites the loaded document when it is truthy. -/
def mergeBasic (user : User) (req : UpdateReq) : User :=
  let user := match truthy req.fullname with
    | some fullname => { user with fullname := fullname }
    | none => user
  let user := match truthy req.email with
    | some email => { user with email := email }
    | none => user
  let user := match truthy req.phoneNumber with
    | some phoneNumber => { user with phoneNumber := .str phoneNumber }
    | none => user
  let user := match truthy req.bio with
    | some bio => { user with profile := { user.profile with bio := some bio } }
    | none => user
  match truthy req.skills with
  | some skills => { user with profile := { user.profile with skills := parseSkills skills } }
  | none => user

/-- The end of `updateProfile`: save the merged document and reply with its projection. -/
def saveAndReply (env : Env) (store : Store) (user : User) : Outcome :=
  match User.save env store user with
  | .error _ => serverError store
  | .ok store' =>
    { store := store'
      response := some (jsonResponse 200
        [("success", .bool true), ("message", .str "Profile updated successfully"),
         ("user", .user (userProjection user))]) }

/-- The resume step of `updateProfile`, then the save. -/
def updateResume (env : Env) (store : Store) (user : User) (file : Option File) : Outcome :=
  match file with
  | none => saveAndReply env store user
  | some f =>
    match env.getDataUri (some f) with
    | .error _ => serverError store
    | .ok fileUri =>
      match fileUri.bind fun d => truthy d.content with
      | none =>
        { store := store
          response := some (jsonResponse 500
            [("success", .bool false), ("message", .str "Could not create Data‑URI")]) }
      | some content =>
        match env.upload (some content) with
        | .error _ =>
          { store := store
            response := some (jsonResponse 500
              [("success", .bool false), ("message", .str "Resume upload failed")]) }
        | .ok secureUrl =>
          saveAndReply env store
            { user with
              profile :=
                { user.profile with resume := secureUrl, resumeOriginalName := some f.originalname } }

/-- The handler `updateProfile`. -/
def updateProfile (env : Env) (store : Store) (req : UpdateReq) : Outcome :=
  match User.findById env store req.id with
  | .error _ => serverError store
  | .ok none =>
    { store := store
      response := some (jsonResponse 404
        [("success", .bool false), ("message", .str "User not found")]) }
  | .ok (some user) =>
    let user := mergeBasic user req
    match truthy req.password with
    | some password =>
      if jsTrim password ≠ "" then
        match env.hash password with
        | .error _ => serverError store
        | .ok hashedPassword => updateResume env store { user with password := hashedPassword } req.file
      else updateResume env store user req.file
    | none => updateResume env store user req.file

/-! ## Derived documents and reply shapes -/

/-- The document `googleAuth` creates for a new email. -/
def googleUser (store : Store) (name email hashedPassword role : String)
    (picture : Option String) : User :=
  { _id := nextId store, fullname := name, email := email, phoneNumber := .num 1234567890,
    password := hashedPassword, role := role,
    profile := { bio := none, skills := [], resume := none, resumeOriginalName := none,
                 profilePhoto := picture } }

/-- A body of the uniform failure shape: `success` is false and `message` is a string. -/
def isFailureBody (body : List (String × BodyVal)) : Bool :=
  body.lookup "success" == some (.bool false) &&
    match body.lookup "message" with
    | some (.str _) => true
    | _ => false

/-- A reply that is either a success (status 200 or 201, `success` true) or a failure of the
uniform shape with another status. -/
def wellFormedReply (r : Response) : Bool :=
  ((r.status == 200 || r.status == 201) && r.body.lookup "success" == some (.bool true)) ||
    (r.status != 200 && r.status != 201 && isFailureBody r.body)

/-! ## Store invariants -/

/-- No two stored documents share an email. -/
def uniqueEmails (store : Store) : Prop :=
  (store.map fun u => u.email).Nodup

/-- No two stored documents share an id, as the database guarantees for `_id`. -/
def uniqueIds (store : Store) : Prop :=
  (store.map fun u => u._id).Nodup

instance (store : Store) : Decidable (uniqueEmails store) := by
  unfold uniqueEmails
  infer_instance

instance (store : Store) : Decidable (uniqueIds store) := by
  unfold uniqueIds
  infer_instance

/-- Whether a document other than the one with identifier `id` holds `email`. -/
def emailHeldByOther (store : Store) (id : Nat) (email : String) : Bool :=
  store.any fun v => v._id != id && v.email == email

/-! ## Sample data -/

/-- A stored student account whose password hash is `#pw1`. -/
def ann : User :=
  { _id := 1, fullname := "Ann", email := "a@x.com", phoneNumber := .str "555",
    password := "#pw1", role := "student",
    profile := { bio := none, skills := [], resume := none, resumeOriginalName := none,
                 profilePhoto := some "https://img/ann.png" } }

/-- External calls that all return: hashing prefixes `#`, the token `good` verifies as Ann. -/
def sampleEnv : Env :=
  { verifyIdToken := fun t =>
      if t = some "good" then
        .ok { email := some "a@x.com", name := some "Ann", picture := none }
      else .error "invalid token"
    hash := fun p => .ok ("#" ++ p)
    compare := fun p h => .ok (h == "#" ++ p)
    sign := fun _ => .ok "jwt"
    getDataUri := fun f => .ok (f.map fun g => { content := some ("data:" ++ g.originalname) })
    upload := fun c => .ok (c.map fun d => "https://cdn/" ++ d)
    randomPassword := "0123456789abcdef01234567"
    dbThrows := fun _ => false
    production := false }

/-- The sample external calls with every database call throwing. -/
def dbDownEnv : Env :=
  { sampleEnv with dbThrows := fun _ => true }

/-- A second stored account, a recruiter. -/
def bo : User :=
  { _id := 2, fullname := "Bo", email := "b@x.com", phoneNumber := .num 1234567890,
    password := "#pw2", role := "recruiter",
    profile := { bio := some "hiring", skills := ["ops"], resume := none,
                 resumeOriginalName := none, profilePhoto := none } }

/-- The sample external calls with the media upload throwing. -/
def uploadDownEnv : Env :=
  { sampleEnv with upload := fun _ => .error "upload failed" }

/-- The sample external calls with `getDataUri` returning an object without content. -/
def noContentEnv : Env :=
  { sampleEnv with getDataUri := fun _ => .ok (some { content := none }) }

/-! ## Login -/

theorem truthy_some {s : String} (h : s ≠ "") : truthy (some s) = some s := by
  simp [truthy, h]

/-- C1: a login request with email, password and role present, whose email finds a stored
user, whose password matches that user's hash and whose role is the stored role, gets
status 200 with success true and the token cookie, and the user object in the body has
exactly the fields _id, fullname, email, phoneNumber, role and profile of the stored user,
so no password field. -/
theorem login_success (env : Env) (store : Store) (req : LoginReq)
    (email password role token : String) (u : User)
    (hemail : req.email = some email) (he : email ≠ "")
    (hpassword : req.password = some password) (hp : password ≠ "")
    (hrole : req.role = some role) (hr : role ≠ "")
    (hdb : env.dbThrows .findOne = false)
    (hfind : lookupEmail store email = some u)
    (hmatch : env.compare password u.password = .ok true)
    (hsame : role = u.role)
    (hsign : env.sign u._id = .ok token) :
    (login env store req).response = some
        { status := 200
          cookies := [{ name := "token", value := token, options := loginCookieOptions }]
          body := [("message", .str ("Welcome back " ++ u.fullname)),
                   ("user", .user (userProjection u)), ("success", .bool true)] } ∧
      userProjection u =
        [("_id", .id u._id), ("fullname", .str u.fullname), ("email", .str u.email),
         ("phoneNumber", .val u.phoneNumber), ("role", .str u.role),
         ("profile", .profile u.profile)] ∧
      (userProjection u).map Prod.fst =
        ["_id", "fullname", "email", "phoneNumber", "role", "profile"] ∧
      (userProjection u).lookup "password" = none := by
  subst hsame
  refine ⟨?_, rfl, rfl, ?_⟩
  · simp [login, hemail, hpassword, hrole, truthy_some he, truthy_some hp, truthy_some hr,
      User.findOne, hdb, hfind, hmatch, hsign]
  · simp [userProjection, List.lookup]

/-- C1 at Ann's account with the right password and role. -/
theorem login_success_witness :
    (login sampleEnv [ann] ⟨some "a@x.com", some "pw1", some "student"⟩).response = some
        { status := 200
          cookies := [{ name := "token", value := "jwt", options := loginCookieOptions }]
          body := [("message", .str ("Welcome back " ++ ann.fullname)),
                   ("user", .user (userProjection ann)), ("success", .bool true)] } ∧
      userProjection ann =
        [("_id", .id ann._id), ("fullname", .str ann.fullname), ("email", .str ann.email),
         ("phoneNumber", .val ann.phoneNumber), ("role", .str ann.role),
         ("profile", .profile ann.profile)] ∧
      (userProjection ann).map Prod.fst =
        ["_id", "fullname", "email", "phoneNumber", "role", "profile"] ∧
      (userProjection ann).lookup "password" = none :=
  login_success sampleEnv [ann] ⟨some "a@x.com", some "pw1", some "student"⟩
    "a@x.com" "pw1" "student" "jwt" ann rfl (by decide) rfl (by decide) rfl (by decide)
    rfl (by decide) rfl (by decide) rfl

/-- C2: with email, password and role present, the response when no stored user has the
email is the same response as when a stored user has it and the password does not match:
status 400, no cookie, and the one body with success false and the shared message. -/
theorem login_unknown_email_same_as_wrong_password (env₁ env₂ : Env) (store₁ store₂ : Store)
    (req : LoginReq) (email password role : String) (u : User)
    (hemail : req.email = some email) (he : email ≠ "")
    (hpassword : req.password = some password) (hp : password ≠ "")
    (hrole : req.role = some role) (hr : role ≠ "")
    (hdb₁ : env₁.dbThrows .findOne = false) (hdb₂ : env₂.dbThrows .findOne = false)
    (hnone : lookupEmail store₁ email = none)
    (hsome : lookupEmail store₂ email = some u)
    (hwrong : env₂.compare password u.password = .ok false) :
    (login env₁ store₁ req).response = (login env₂ store₂ req).response ∧
      (login env₁ store₁ req).response = some
        { status := 400
          cookies := []
          body := [("message", .str "Incorrect email or password."),
                   ("success", .bool false)] } := by
  have h₁ : (login env₁ store₁ req).response = some incorrectCredentials := by
    simp [login, hemail, hpassword, hrole, truthy_some he, truthy_some hp, truthy_some hr,
      User.findOne, hdb₁, hnone]
  have h₂ : (login env₂ store₂ req).response = some incorrectCredentials := by
    simp [login, hemail, hpassword, hrole, truthy_some he, truthy_some hp, truthy_some hr,
      User.findOne, hdb₂, hsome, hwrong]
  exact ⟨h₁.trans h₂.symm, h₁⟩

/-- C2 at an empty collection against Ann's account with the password `nope`. -/
theorem login_unknown_email_same_as_wrong_password_witness :
    (login sampleEnv [] ⟨some "a@x.com", some "nope", some "student"⟩).response
        = (login sampleEnv [ann] ⟨some "a@x.com", some "nope", some "student"⟩).response ∧
      (login sampleEnv [] ⟨some "a@x.com", some "nope", some "student"⟩).response = some
        { status := 400
          cookies := []
          body := [("message", .str "Incorrect email or password."),
                   ("success", .bool false)] } :=
  login_unknown_email_same_as_wrong_password sampleEnv sampleEnv [] [ann]
    ⟨some "a@x.com", some "nope", some "student"⟩ "a@x.com" "nope" "student" ann
    rfl (by decide) rfl (by decide) rfl (by decide) rfl rfl rfl (by decide) rfl

/-- C3 as stated fails: Ann is a stored student, the request names her email with the role
recruiter, and because the password does not match the reply carries the
incorrect-credentials message, not the role-mismatch message. -/
theorem login_role_mismatch_counterexample :
    lookupEmail [ann] "a@x.com" = some ann ∧ "recruiter" ≠ ann.role ∧
      (login sampleEnv [ann] ⟨some "a@x.com", some "nope", some "recruiter"⟩).response = some
        { status := 400
          cookies := []
          body := [("message", .str "Incorrect email or password."),
                   ("success", .bool false)] } ∧
      (login sampleEnv [ann] ⟨some "a@x.com", some "nope", some "recruiter"⟩).response ≠ some
        { status := 400
          cookies := []
          body := [("message", .str "Account doesn't exist with current role."),
                   ("success", .bool false)] } := by
  decide

/-- C3 amended: with all fields present, the email of a stored user, a matching password
and a role other than the stored one, login replies 400 with success false and the
role-mismatch message, sets no cookie and leaves the collection as it was. -/
theorem login_role_mismatch (env : Env) (store : Store) (req : LoginReq)
    (email password role : String) (u : User)
    (hemail : req.email = some email) (he : email ≠ "")
    (hpassword : req.password = some password) (hp : password ≠ "")
    (hrole : req.role = some role) (hr : role ≠ "")
    (hdb : env.dbThrows .findOne = false)
    (hfind : lookupEmail store email = some u)
    (hmatch : env.compare password u.password = .ok true)
    (hdiff : role ≠ u.role) :
    login env store req =
      { store := store
        response := some
          { status := 400
            cookies := []
            body := [("message", .str "Account doesn't exist with current role."),
                     ("success", .bool false)] } } := by
  simp [login, hemail, hpassword, hrole, truthy_some he, truthy_some hp, truthy_some hr,
    User.findOne, hdb, hfind, hmatch, hdiff, jsonResponse]

/-- C3 amended, at Ann's account with her password and the role recruiter. -/
theorem login_role_mismatch_witness :
    login sampleEnv [ann] ⟨some "a@x.com", some "pw1", some "recruiter"⟩ =
      { store := [ann]
        response := some
          { status := 400
            cookies := []
            body := [("message", .str "Account doesn't exist with current role."),
                     ("success", .bool false)] } } :=
  login_role_mismatch sampleEnv [ann] ⟨some "a@x.com", some "pw1", some "recruiter"⟩
    "a@x.com" "pw1" "recruiter" ann rfl (by decide) rfl (by decide) rfl (by decide)
    rfl (by decide) rfl (by decide)

/-! ## Register -/

/-- Whatever the external calls do, `register` on an email that is already stored leaves the
collection as it was. -/
theorem register_duplicate_keeps_store (env : Env) (store : Store) (req : RegisterReq)
    (email : String) (u : User)
    (hemail : req.email = some email)
    (hfind : lookupEmail store email = some u) :
    (register env store req).store = store := by
  unfold register
  split
  · rename_i fullname email' phoneNumber password role _ h₂ _ _ _
    have hem : email' = email := by
      rw [hemail] at h₂
      unfold truthy at h₂
      split at h₂ <;> simp_all
    subst hem
    cases hd : env.getDataUri req.file with
    | error e => simp [loggedOnly]
    | ok fileUri =>
      cases fileUri with
      | none => simp [loggedOnly]
      | some d =>
        cases hu : env.upload d.content with
        | error e => simp [hu, loggedOnly]
        | ok url =>
          cases hdb : env.dbThrows .findOne <;>
            simp [hu, User.findOne, hdb, hfind, loggedOnly]
  · rfl

/-- When the photo is converted and uploaded and the lookup returns, a register request with
all required fields present and an email that is already stored gets status 400 with
success false, and the collection is left exactly as it was. -/
theorem register_existing_email (env : Env) (store : Store) (req : RegisterReq)
    (fullname email phoneNumber password role : String) (u : User)
    (fileUri : DataUri) (secureUrl : Option String)
    (hfullname : req.fullname = some fullname) (hf : fullname ≠ "")
    (hemail : req.email = some email) (he : email ≠ "")
    (hphone : req.phoneNumber = some phoneNumber) (hn : phoneNumber ≠ "")
    (hpassword : req.password = some password) (hp : password ≠ "")
    (hrole : req.role = some role) (hr : role ≠ "")
    (huri : env.getDataUri req.file = .ok (some fileUri))
    (hupload : env.upload fileUri.content = .ok secureUrl)
    (hdb : env.dbThrows .findOne = false)
    (hfind : lookupEmail store email = some u) :
    (register env store req).response = some
        { status := 400
          cookies := []
          body := [("message", .str "User already exist with this email."),
                   ("success", .bool false)] } ∧
      (register env store req).store = store ∧
      (register env store req).store.length = store.length := by
  have h : register env store req =
      { store := store
        response := some (jsonResponse 400
          [("message", .str "User already exist with this email."),
           ("success", .bool false)]) } := by
    simp [register, hfullname, hemail, hphone, hpassword, hrole, truthy_some hf,
      truthy_some he, truthy_some hn, truthy_some hp, truthy_some hr, huri, hupload,
      User.findOne, hdb, hfind]
  rw [h]
  exact ⟨rfl, rfl, rfl⟩

/-- A second registration of Ann's email, with a photo that uploads. -/
theorem register_existing_email_witness :
    (register sampleEnv [ann]
        ⟨some "Bo", some "a@x.com", some "777", some "pw2", some "recruiter",
          some ⟨"bo.png"⟩⟩).response = some
        { status := 400
          cookies := []
          body := [("message", .str "User already exist with this email."),
                   ("success", .bool false)] } ∧
      (register sampleEnv [ann]
        ⟨some "Bo", some "a@x.com", some "777", some "pw2", some "recruiter",
          some ⟨"bo.png"⟩⟩).store = [ann] ∧
      (register sampleEnv [ann]
        ⟨some "Bo", some "a@x.com", some "777", some "pw2", some "recruiter",
          some ⟨"bo.png"⟩⟩).store.length = [ann].length :=
  register_existing_email sampleEnv [ann]
    ⟨some "Bo", some "a@x.com", some "777", some "pw2", some "recruiter", some ⟨"bo.png"⟩⟩
    "Bo" "a@x.com" "777" "pw2" "recruiter" ann ⟨some "data:bo.png"⟩
    (some "https://cdn/data:bo.png")
    rfl (by decide) rfl (by decide) rfl (by decide) rfl (by decide) rfl (by decide)
    rfl rfl rfl (by decide)

/-- With all required fields present and no photo, `register` sends nothing when the
data-URI conversion of the missing file throws or returns nothing. -/
theorem register_silent_without_photo (env : Env) (store : Store) (req : RegisterReq)
    (fullname email phoneNumber password role : String)
    (hfullname : req.fullname = some fullname) (hf : fullname ≠ "")
    (hemail : req.email = some email) (he : email ≠ "")
    (hphone : req.phoneNumber = some phoneNumber) (hn : phoneNumber ≠ "")
    (hpassword : req.password = some password) (hp : password ≠ "")
    (hrole : req.role = some role) (hr : role ≠ "")
    (hfile : req.file = none)
    (huri : (∃ e, env.getDataUri none = .error e) ∨ env.getDataUri none = .ok none) :
    register env store req = { store := store, response := none } := by
  rcases huri with ⟨e, huri⟩ | huri <;>
    simp [register, hfullname, hemail, hphone, hpassword, hrole, truthy_some hf,
      truthy_some he, truthy_some hn, truthy_some hp, truthy_some hr, hfile, huri, loggedOnly]

/-- C4 at its failing inputs: Ann's email is stored and a register request with all five
required fields names it. Sent without a photo, or with a photo whose upload throws, the
request ends with no reply at all instead of the 400; the collection is unchanged in both
runs. -/
theorem register_duplicate_gets_no_reply :
    lookupEmail [ann] "a@x.com" = some ann ∧
      register sampleEnv [ann]
        ⟨some "Bo", some "a@x.com", some "777", some "pw2", some "recruiter", none⟩
        = { store := [ann], response := none } ∧
      register uploadDownEnv [ann]
        ⟨some "Bo", some "a@x.com", some "777", some "pw2", some "recruiter",
          some ⟨"bo.png"⟩⟩
        = { store := [ann], response := none } := by
  decide

/-! ## Google sign-in -/

/-- C5: when the identity token verifies with email and name claims and the stored user
with that email has a role other than the supplied one, googleAuth replies 400 with
success false, sets no cookie, and the collection is exactly what it was. -/
theorem googleAuth_role_conflict (env : Env) (store : Store) (req : GoogleReq)
    (payload : Payload) (email name : String) (u : User)
    (hverify : env.verifyIdToken req.token = .ok payload)
    (hemail : payload.email = some email) (he : email ≠ "")
    (hname : payload.name = some name) (hn : name ≠ "")
    (hdb : env.dbThrows .findOne = false)
    (hfind : lookupEmail store email = some u)
    (hdiff : some u.role ≠ req.role) :
    googleAuth env store req =
      { store := store
        response := some
          { status := 400
            cookies := []
            body := [("success", .bool false),
                     ("message", .str "User already exists but with other role.")] } } := by
  simp [googleAuth, hverify, hemail, hname, truthy_some he, truthy_some hn, User.findOne,
    hdb, hfind, hdiff, jsonResponse]

/-- C5 at Ann's student account and a sign-in as recruiter. -/
theorem googleAuth_role_conflict_witness :
    googleAuth sampleEnv [ann] ⟨some "good", some "recruiter"⟩ =
      { store := [ann]
        response := some
          { status := 400
            cookies := []
            body := [("success", .bool false),
                     ("message", .str "User already exists but with other role.")] } } :=
  googleAuth_role_conflict sampleEnv [ann] ⟨some "good", some "recruiter"⟩
    ⟨some "a@x.com", some "Ann", none⟩ "a@x.com" "Ann" ann
    rfl rfl (by decide) rfl (by decide) rfl (by decide) (by decide)

theorem lookupEmail_append_new (store : Store) (u : User)
    (hnone : lookupEmail store u.email = none) :
    lookupEmail (store ++ [u]) u.email = some u := by
  unfold lookupEmail at hnone ⊢
  rw [List.find?_append, hnone]
  simp

/-- With a non-empty role r and an email that is not stored yet, the first googleAuth call
appends exactly one user with role r and replies 200; the second call with the same token
and role replies 200 for that same user and leaves the collection as the first call left
it. -/
theorem googleAuth_twice_same_role (env : Env) (store : Store) (req : GoogleReq)
    (payload : Payload) (email name r hashedPassword jwtToken : String)
    (hverify : env.verifyIdToken req.token = .ok payload)
    (hemail : payload.email = some email) (he : email ≠ "")
    (hname : payload.name = some name) (hn : name ≠ "")
    (hrole : req.role = some r) (hr : r ≠ "")
    (hfind : env.dbThrows .findOne = false) (hcreate : env.dbThrows .create = false)
    (hnew : lookupEmail store email = none)
    (hhash : env.hash env.randomPassword = .ok hashedPassword)
    (hsign : env.sign (nextId store) = .ok jwtToken) :
    let created := googleUser store name email hashedPassword r payload.picture
    let reply : Response :=
      { status := 200
        cookies := [{ name := "token", value := jwtToken, options := googleCookieOptions env }]
        body := [("message", .str ("Welcome " ++ name)), ("user", .user (userDocument created)),
                 ("success", .bool true)] }
    googleAuth env store req = { store := store ++ [created], response := some reply } ∧
      googleAuth env (store ++ [created]) req =
        { store := store ++ [created], response := some reply } := by
  intro created reply
  have hsign' : env.sign created._id = .ok jwtToken := hsign
  have hlook : lookupEmail (store ++ [created]) email = some created :=
    lookupEmail_append_new store created hnew
  constructor
  · simp [googleAuth, hverify, hemail, hname, truthy_some he, truthy_some hn, User.findOne,
      hfind, hnew, hhash, User.create, hcreate, hrole, truthy_some hr, googleAuthIssue, hsign,
      created, reply, googleUser]
  · simp [googleAuth, hverify, hemail, hname, truthy_some he, truthy_some hn, User.findOne,
      hfind, hlook, hrole, googleAuthIssue, hsign', reply]
    simp [created, googleUser]

/-- C6 at its failing input: on an empty collection a verified token with the role omitted
creates a student account and gets 200, and the same request sent again gets 400 with the
other-role message; the same happens with the empty string as role. -/
theorem googleAuth_twice_omitted_role :
    (googleAuth sampleEnv [] ⟨some "good", none⟩).response.map (fun r => r.status) = some 200 ∧
      (googleAuth sampleEnv [] ⟨some "good", none⟩).store.map (fun u => (u.email, u.role))
        = [("a@x.com", "student")] ∧
      (googleAuth sampleEnv (googleAuth sampleEnv [] ⟨some "good", none⟩).store
          ⟨some "good", none⟩).response = some
        { status := 400
          cookies := []
          body := [("success", .bool false),
                   ("message", .str "User already exists but with other role.")] } ∧
      (googleAuth sampleEnv (googleAuth sampleEnv [] ⟨some "good", some ""⟩).store
          ⟨some "good", some ""⟩).response = some
        { status := 400
          cookies := []
          body := [("success", .bool false),
                   ("message", .str "User already exists but with other role.")] } := by
  decide

/-! ## Splitting and trimming -/

theorem splitChars_ne_nil (sep : Char) (cs : List Char) : splitChars sep cs ≠ [] := by
  induction cs with
  | nil => simp [splitChars]
  | cons c cs ih =>
    unfold splitChars
    split
    · simp
    · split <;> simp

theorem splitChars_length (sep : Char) (cs : List Char) :
    (splitChars sep cs).length = cs.count sep + 1 := by
  induction cs with
  | nil => simp [splitChars]
  | cons c cs ih =>
    unfold splitChars
    by_cases h : c = sep
    · subst h; simp [ih]
    · have h' : (c == sep) = false := by simpa using h
      rw [if_neg h, List.count_cons, h']
      cases hs : splitChars sep cs with
      | nil => exact absurd hs (splitChars_ne_nil sep cs)
      | cons p ps => rw [hs] at ih; simpa using ih

theorem splitChars_intercalate (sep : Char) (cs : List Char) :
    List.intercalate [sep] (splitChars sep cs) = cs := by
  induction cs with
  | nil => simp [splitChars, List.intercalate]
  | cons c cs ih =>
    unfold splitChars
    by_cases h : c = sep
    · subst h
      rw [if_pos rfl]
      cases hs : splitChars c cs with
      | nil => exact absurd hs (splitChars_ne_nil c cs)
      | cons p ps =>
        rw [hs] at ih
        simp only [List.intercalate] at ih ⊢
        simp [List.intersperse, ih]
    · rw [if_neg h]
      cases hs : splitChars sep cs with
      | nil => exact absurd hs (splitChars_ne_nil sep cs)
      | cons p ps =>
        rw [hs] at ih
        simp only [List.intercalate] at ih ⊢
        cases ps with
        | nil => simpa [List.intersperse] using ih
        | cons q qs => simpa [List.intersperse] using ih

theorem splitChars_no_sep (sep : Char) (cs : List Char) :
    ∀ p ∈ splitChars sep cs, sep ∉ p := by
  induction cs with
  | nil => simp [splitChars]
  | cons c cs ih =>
    unfold splitChars
    by_cases h : c = sep
    · subst h
      rw [if_pos rfl]
      intro p hp
      rcases List.mem_cons.mp hp with rfl | hp
      · simp
      · exact ih p hp
    · rw [if_neg h]
      cases hs : splitChars sep cs with
      | nil => exact absurd hs (splitChars_ne_nil sep cs)
      | cons q qs =>
        rw [hs] at ih
        intro p hp
        rcases List.mem_cons.mp hp with rfl | hp
        · intro hmem
          rcases List.mem_cons.mp hmem with rfl | hmem
          · exact h rfl
          · exact ih q (List.mem_cons_self _ _) hmem
        · exact ih p (List.mem_cons_of_mem _ hp)

theorem dropWhile_head_not (p : Char → Bool) (l : List Char) (c : Char)
    (h : (l.dropWhile p).head? = some c) : p c = false := by
  have := List.head?_dropWhile_not p l
  rw [h] at this
  exact this

theorem trimChars_last (cs : List Char) (c : Char)
    (h : (trimChars cs).getLast? = some c) : isJsWhiteSpace c = false := by
  unfold trimChars at h
  rw [List.getLast?_reverse] at h
  exact dropWhile_head_not _ _ _ h

theorem trimChars_head (cs : List Char) (c : Char)
    (h : (trimChars cs).head? = some c) : isJsWhiteSpace c = false := by
  unfold trimChars at h
  rw [List.head?_reverse] at h
  obtain ⟨t, ht⟩ := List.dropWhile_suffix isJsWhiteSpace
    (l := (cs.dropWhile isJsWhiteSpace).reverse)
  have hne : List.dropWhile isJsWhiteSpace (cs.dropWhile isJsWhiteSpace).reverse ≠ [] := by
    intro h0
    rw [h0] at h
    simp at h
  have hlast : (cs.dropWhile isJsWhiteSpace).reverse.getLast? = some c := by
    rw [← ht, List.getLast?_append_of_ne_nil _ hne]
    exact h
  rw [List.getLast?_reverse] at hlast
  exact dropWhile_head_not _ _ _ hlast

theorem trimChars_decompose (cs : List Char) :
    ∃ l r, cs = l ++ trimChars cs ++ r ∧ (∀ c ∈ l, isJsWhiteSpace c = true) ∧
      ∀ c ∈ r, isJsWhiteSpace c = true := by
  refine ⟨cs.takeWhile isJsWhiteSpace,
    ((cs.dropWhile isJsWhiteSpace).reverse.takeWhile isJsWhiteSpace).reverse, ?_, ?_, ?_⟩
  · unfold trimChars
    rw [List.append_assoc, ← List.reverse_append, List.takeWhile_append_dropWhile,
      List.reverse_reverse, List.takeWhile_append_dropWhile]
  · intro c hc
    exact List.mem_takeWhile_imp hc
  · intro c hc
    exact List.mem_takeWhile_imp (List.mem_reverse.mp hc)

/-! ## Profile update -/

theorem lookupId_id {store : Store} {id : Nat} {u : User} (h : lookupId store id = some u) :
    u._id = id := by
  have := List.find?_some h
  simpa using this

theorem lookupId_writeBack (store : Store) (id : Nat) (u v : User)
    (h : lookupId store id = some u) (hv : v._id = id) :
    lookupId (writeBack store v) id = some v := by
  induction store with
  | nil => simp [lookupId] at h
  | cons w rest ih =>
    have hmap : writeBack (w :: rest) v
        = (if w._id = v._id then v else w) :: writeBack rest v := rfl
    by_cases hw : w._id = id
    · have hw' : w._id = v._id := by rw [hv]; exact hw
      rw [hmap, if_pos hw']
      exact List.find?_cons_of_pos _ (by simpa using hv)
    · have hw' : ¬ w._id = v._id := by rw [hv]; exact hw
      have hrest : lookupId rest id = some u := by
        unfold lookupId at h ⊢
        rwa [List.find?_cons_of_neg _ (by simpa using hw)] at h
      rw [hmap, if_neg hw']
      unfold lookupId
      rw [List.find?_cons_of_neg _ (by simpa using hw)]
      exact ih hrest

/-- C7: for a stored user u, an updateProfile request for u's id that carries only a
non-empty bio x is answered with status 200 and success true, and the document saved under
that id has bio x while fullname, email, phoneNumber, skills, password, role and the resume
fields are those of u. -/
theorem updateProfile_only_bio (env : Env) (store : Store) (req : UpdateReq) (u : User)
    (x : String)
    (hid : lookupId store req.id = some u)
    (hbio : req.bio = some x) (hx : x ≠ "")
    (hfullname : req.fullname = none) (hemail : req.email = none)
    (hphone : req.phoneNumber = none) (hskills : req.skills = none)
    (hpassword : req.password = none) (hfile : req.file = none)
    (hfindById : env.dbThrows .findById = false) (hsave : env.dbThrows .save = false) :
    ∃ saved : User,
      lookupId (updateProfile env store req).store req.id = some saved ∧
      (updateProfile env store req).store = writeBack store saved ∧
      (updateProfile env store req).response = some
        { status := 200
          cookies := []
          body := [("success", .bool true), ("message", .str "Profile updated successfully"),
                   ("user", .user (userProjection saved))] } ∧
      saved.profile.bio = some x ∧
      saved.fullname = u.fullname ∧ saved.email = u.email ∧
      saved.phoneNumber = u.phoneNumber ∧ saved.profile.skills = u.profile.skills ∧
      saved.password = u.password ∧ saved.role = u.role ∧
      saved.profile.resume = u.profile.resume ∧
      saved.profile.resumeOriginalName = u.profile.resumeOriginalName ∧
      saved._id = u._id ∧ saved.profile.profilePhoto = u.profile.profilePhoto := by
  have hrun : updateProfile env store req =
      { store := writeBack store { u with profile := { u.profile with bio := some x } }
        response := some (jsonResponse 200
          [("success", .bool true), ("message", .str "Profile updated successfully"),
           ("user", .user (userProjection
              { u with profile := { u.profile with bio := some x } }))]) } := by
    simp [updateProfile, User.findById, hfindById, hid, mergeBasic, hbio, truthy_some hx,
      hfullname, hemail, hphone, hskills, hpassword, hfile, truthy, hx, updateResume,
      saveAndReply, User.save, hsave]
  refine ⟨{ u with profile := { u.profile with bio := some x } }, ?_, ?_, ?_, rfl, rfl, rfl,
    rfl, rfl, rfl, rfl, rfl, rfl, rfl, rfl⟩
  · rw [hrun]
    exact lookupId_writeBack store req.id u _ hid (lookupId_id hid : u._id = req.id)
  · rw [hrun]
  · rw [hrun]
    rfl

/-- C7 at Ann's account and the bio `x`. -/
theorem updateProfile_only_bio_witness :
    ∃ saved : User,
      lookupId (updateProfile sampleEnv [ann]
        ⟨1, none, none, none, some "x", none, none, none⟩).store 1 = some saved ∧
      (updateProfile sampleEnv [ann]
        ⟨1, none, none, none, some "x", none, none, none⟩).store = writeBack [ann] saved ∧
      (updateProfile sampleEnv [ann]
        ⟨1, none, none, none, some "x", none, none, none⟩).response = some
        { status := 200
          cookies := []
          body := [("success", .bool true), ("message", .str "Profile updated successfully"),
                   ("user", .user (userProjection saved))] } ∧
      saved.profile.bio = some "x" ∧
      saved.fullname = ann.fullname ∧ saved.email = ann.email ∧
      saved.phoneNumber = ann.phoneNumber ∧ saved.profile.skills = ann.profile.skills ∧
      saved.password = ann.password ∧ saved.role = ann.role ∧
      saved.profile.resume = ann.profile.resume ∧
      saved.profile.resumeOriginalName = ann.profile.resumeOriginalName ∧
      saved._id = ann._id ∧ saved.profile.profilePhoto = ann.profile.profilePhoto :=
  updateProfile_only_bio sampleEnv [ann] ⟨1, none, none, none, some "x", none, none, none⟩
    ann "x" (by decide) rfl (by decide) rfl rfl rfl rfl rfl rfl rfl rfl

theorem mergeBasic_id (u : User) (req : UpdateReq) : (mergeBasic u req)._id = u._id := by
  unfold mergeBasic
  cases truthy req.fullname <;> cases truthy req.email <;> cases truthy req.phoneNumber <;>
    cases truthy req.bio <;> cases truthy req.skills <;> rfl

theorem mergeBasic_skills (u : User) (req : UpdateReq) (s : String)
    (hskills : req.skills = some s) (hs : s ≠ "") :
    (mergeBasic u req).profile.skills = parseSkills s := by
  unfold mergeBasic
  rw [hskills, truthy_some hs]

theorem saveAndReply_ok (env : Env) (store : Store) (user : User)
    (h : (saveAndReply env store user).response.map (fun r => r.status) = some 200) :
    (saveAndReply env store user).store = writeBack store user := by
  unfold saveAndReply User.save at *
  cases hs : env.dbThrows .save <;> simp [hs, serverError, jsonResponse] at h ⊢

theorem updateResume_ok (env : Env) (store : Store) (user : User) (file : Option File)
    (h : (updateResume env store user file).response.map (fun r => r.status) = some 200) :
    ∃ saved : User, (updateResume env store user file).store = writeBack store saved ∧
      saved._id = user._id ∧ saved.profile.skills = user.profile.skills := by
  unfold updateResume at h ⊢
  cases file with
  | none => exact ⟨user, saveAndReply_ok _ _ _ h, rfl, rfl⟩
  | some f =>
    cases hd : env.getDataUri (some f) with
    | error e => simp [hd, serverError, jsonResponse] at h
    | ok fileUri =>
      cases hc : (fileUri.bind fun d => truthy d.content) with
      | none => simp [hd, hc, jsonResponse] at h
      | some content =>
        cases hu : env.upload (some content) with
        | error e => simp [hd, hc, hu, jsonResponse] at h
        | ok url =>
          simp only [hd, hc, hu] at h ⊢
          exact ⟨_, saveAndReply_ok _ _ _ h, rfl, rfl⟩

theorem updateProfile_ok (env : Env) (store : Store) (req : UpdateReq) (u : User)
    (hid : lookupId store req.id = some u)
    (h : (updateProfile env store req).response.map (fun r => r.status) = some 200) :
    ∃ saved : User, (updateProfile env store req).store = writeBack store saved ∧
      saved._id = u._id ∧ saved.profile.skills = (mergeBasic u req).profile.skills := by
  unfold updateProfile User.findById at h ⊢
  cases hdb : env.dbThrows .findById with
  | true => simp [hdb, serverError, jsonResponse] at h
  | false =>
    simp only [hdb, hid] at h ⊢
    cases hp : truthy req.password with
    | none =>
      simp only [hp] at h ⊢
      obtain ⟨saved, h₁, h₂, h₃⟩ := updateResume_ok _ _ _ _ h
      exact ⟨saved, h₁, h₂.trans (mergeBasic_id u req), h₃⟩
    | some password =>
      simp only [hp] at h ⊢
      by_cases ht : jsTrim password ≠ ""
      · simp only [if_pos ht] at h ⊢
        cases hh : env.hash password with
        | error e => simp [hh, serverError, jsonResponse] at h
        | ok hashed =>
          simp only [hh] at h ⊢
          obtain ⟨saved, h₁, h₂, h₃⟩ := updateResume_ok _ _ _ _ h
          exact ⟨saved, h₁, h₂.trans (mergeBasic_id u req), h₃⟩
      · simp only [if_neg ht] at h ⊢
        obtain ⟨saved, h₁, h₂, h₃⟩ := updateResume_ok _ _ _ _ h
        exact ⟨saved, h₁, h₂.trans (mergeBasic_id u req), h₃⟩

/-- C8: when an updateProfile request for a stored user carries a non-empty skills string s
and the update is saved (status 200), the saved skills are the comma-separated pieces of s
in order, each trimmed: joining the untrimmed pieces with commas gives back s, no piece
holds a comma, the list has one more element than s has commas, and no element starts or
ends with a whitespace character. -/
theorem updateProfile_skills (env : Env) (store : Store) (req : UpdateReq) (u : User)
    (s : String)
    (hid : lookupId store req.id = some u)
    (hskills : req.skills = some s) (hs : s ≠ "")
    (hok : (updateProfile env store req).response.map (fun r => r.status) = some 200) :
    ∃ saved : User,
      lookupId (updateProfile env store req).store req.id = some saved ∧
      saved.profile.skills
        = (splitChars ',' s.data).map (fun piece => String.mk (trimChars piece)) ∧
      List.intercalate [','] (splitChars ',' s.data) = s.data ∧
      (∀ piece ∈ splitChars ',' s.data, ',' ∉ piece) ∧
      saved.profile.skills.length = s.data.count ',' + 1 ∧
      ∀ e ∈ saved.profile.skills,
        (∀ c, e.data.head? = some c → isJsWhiteSpace c = false) ∧
        (∀ c, e.data.getLast? = some c → isJsWhiteSpace c = false) := by
  obtain ⟨saved, hstore, hsid, hsk⟩ := updateProfile_ok env store req u hid hok
  have hparsed : saved.profile.skills
      = (splitChars ',' s.data).map (fun piece => String.mk (trimChars piece)) := by
    rw [hsk, mergeBasic_skills u req s hskills hs]
    simp [parseSkills, jsSplitComma, jsTrim, Function.comp_def]
  refine ⟨saved, ?_, hparsed, splitChars_intercalate ',' s.data,
    splitChars_no_sep ',' s.data, ?_, ?_⟩
  · rw [hstore]
    exact lookupId_writeBack store req.id u saved hid (hsid.trans (lookupId_id hid))
  · rw [hparsed, List.length_map, splitChars_length]
  · intro e he
    rw [hparsed] at he
    obtain ⟨piece, _, rfl⟩ := List.mem_map.mp he
    exact ⟨fun c hc => trimChars_head piece c hc, fun c hc => trimChars_last piece c hc⟩

/-- C8 at Ann's account and the skills string ` lean , js,go `. -/
theorem updateProfile_skills_witness :
    ∃ saved : User,
      lookupId (updateProfile sampleEnv [ann]
        ⟨1, none, none, none, none, some " lean , js,go ", none, none⟩).store 1 = some saved ∧
      saved.profile.skills
        = (splitChars ',' " lean , js,go ".data).map
            (fun piece => String.mk (trimChars piece)) ∧
      List.intercalate [','] (splitChars ',' " lean , js,go ".data) = " lean , js,go ".data ∧
      (∀ piece ∈ splitChars ',' " lean , js,go ".data, ',' ∉ piece) ∧
      saved.profile.skills.length = " lean , js,go ".data.count ',' + 1 ∧
      ∀ e ∈ saved.profile.skills,
        (∀ c, e.data.head? = some c → isJsWhiteSpace c = false) ∧
        (∀ c, e.data.getLast? = some c → isJsWhiteSpace c = false) :=
  updateProfile_skills sampleEnv [ann]
    ⟨1, none, none, none, none, some " lean , js,go ", none, none⟩ ann " lean , js,go "
    (by decide) rfl (by decide) (by decide)

/-- The skills string ` lean , js,go ` parses to the three trimmed names. -/
theorem parseSkills_example : parseSkills " lean , js,go " = ["lean", "js", "go"] := by
  decide

/-! ## Cookie attributes -/

/-- Every login reply with status 200 sets exactly one cookie, named token, with the
options written in `login`. -/
theorem login_ok_cookie (env : Env) (store : Store) (req : LoginReq) (resp : Response)
    (h : (login env store req).response = some resp) (hok : resp.status = 200) :
    ∃ token, resp.cookies = [{ name := "token", value := token, options := loginCookieOptions }] := by
  unfold login User.findOne at h
  repeat' split at h
  all_goals
    simp [loggedOnly, somethingMissing, incorrectCredentials, jsonResponse] at h
  all_goals subst h
  all_goals simp at hok ⊢

/-- The options of the login cookie: the max age is 24 hours in milliseconds and sameSite is
strict, the key written is `httpsOnly`, and there is no `httpOnly` key. -/
theorem loginCookieOptions_lookup :
    loginCookieOptions.lookup "maxAge" = some (.num 86400000) ∧
      loginCookieOptions.lookup "sameSite" = some (.str "strict") ∧
      loginCookieOptions.lookup "httpsOnly" = some (.bool true) ∧
      loginCookieOptions.lookup "httpOnly" = none := by
  decide

/-- The cookie of `googleAuth` does carry `httpOnly: true`. -/
theorem googleCookieOptions_httpOnly (env : Env) :
    (googleCookieOptions env).lookup "httpOnly" = some (.bool true) := by
  simp [googleCookieOptions, List.lookup]

/-- C9 at its failing input: Ann's successful login sets the token cookie with max age
86400000 and sameSite strict, but with no httpOnly attribute; the option the code writes
is spelled httpsOnly. -/
theorem login_cookie_not_httpOnly :
    (login sampleEnv [ann] ⟨some "a@x.com", some "pw1", some "student"⟩).response.map
        (fun r => (r.status, r.cookies))
      = some (200, [{ name := "token", value := "jwt",
                      options := [("maxAge", .num 86400000), ("httpsOnly", .bool true),
                                  ("sameSite", .str "strict")] }]) ∧
      List.lookup "httpOnly"
        [("maxAge", OptVal.num 86400000), ("httpsOnly", .bool true),
         ("sameSite", .str "strict")] = none := by
  decide

/-! ## Replies on failure -/

/-- Whatever the external calls do, `googleAuth` sends a reply, and it is well formed. -/
theorem googleAuth_always_replies (env : Env) (store : Store) (req : GoogleReq) :
    ∃ resp, (googleAuth env store req).response = some resp ∧ wellFormedReply resp = true := by
  unfold googleAuth googleAuthIssue User.findOne User.create
  repeat' split
  all_goals
    simp_all [googleAuthCaught, googleAuthIssue, jsonResponse, wellFormedReply, isFailureBody,
      List.lookup]

/-- Whatever the external calls do, `updateProfile` sends a reply, and it is well formed. -/
theorem updateProfile_always_replies (env : Env) (store : Store) (req : UpdateReq) :
    ∃ resp, (updateProfile env store req).response = some resp ∧
      wellFormedReply resp = true := by
  have hsave : ∀ user, ∃ resp, (saveAndReply env store user).response = some resp ∧
      wellFormedReply resp = true := by
    intro user
    unfold saveAndReply User.save
    repeat' split
    all_goals
      simp_all [serverError, jsonResponse, wellFormedReply, isFailureBody, List.lookup]
  have hresume : ∀ user file, ∃ resp, (updateResume env store user file).response = some resp ∧
      wellFormedReply resp = true := by
    intro user file
    unfold updateResume
    repeat' split
    all_goals first
      | exact hsave _
      | simp [serverError, jsonResponse, wellFormedReply, isFailureBody, List.lookup]
  unfold updateProfile User.findById
  repeat' split
  all_goals first
    | exact hresume _ _
    | simp [serverError, jsonResponse, wellFormedReply, isFailureBody, List.lookup]

/-- The handler `logout` always replies with status 200 and success true. -/
theorem logout_always_replies (store : Store) :
    ∃ resp, (logout store).response = some resp ∧ wellFormedReply resp = true := by
  exact ⟨_, rfl, by decide⟩

/-- Every reply `login` does send is well formed. -/
theorem login_reply_wellFormed (env : Env) (store : Store) (req : LoginReq) (resp : Response)
    (h : (login env store req).response = some resp) : wellFormedReply resp = true := by
  unfold login User.findOne at h
  repeat' split at h
  all_goals
    simp [loggedOnly, somethingMissing, incorrectCredentials, jsonResponse] at h
  all_goals subst h
  all_goals simp [wellFormedReply, isFailureBody, List.lookup]

/-- Every reply `register` does send is well formed. -/
theorem register_reply_wellFormed (env : Env) (store : Store) (req : RegisterReq)
    (resp : Response) (h : (register env store req).response = some resp) :
    wellFormedReply resp = true := by
  unfold register User.findOne User.create at h
  repeat' split at h
  all_goals
    simp [loggedOnly, somethingMissing, jsonResponse] at h
  all_goals subst h
  all_goals simp [wellFormedReply, isFailureBody, List.lookup]

/-- With all fields present, `login` sends nothing when the user lookup throws. -/
theorem login_silent_when_lookup_throws (env : Env) (store : Store) (req : LoginReq)
    (email password role : String)
    (hemail : req.email = some email) (he : email ≠ "")
    (hpassword : req.password = some password) (hp : password ≠ "")
    (hrole : req.role = some role) (hr : role ≠ "")
    (hdb : env.dbThrows .findOne = true) :
    login env store req = { store := store, response := none } := by
  simp [login, hemail, hpassword, hrole, truthy_some he, truthy_some hp, truthy_some hr,
    User.findOne, hdb, loggedOnly]

/-- With all required fields present, `register` sends nothing when the upload throws. -/
theorem register_silent_when_upload_throws (env : Env) (store : Store) (req : RegisterReq)
    (fullname email phoneNumber password role e : String) (fileUri : DataUri)
    (hfullname : req.fullname = some fullname) (hf : fullname ≠ "")
    (hemail : req.email = some email) (he : email ≠ "")
    (hphone : req.phoneNumber = some phoneNumber) (hn : phoneNumber ≠ "")
    (hpassword : req.password = some password) (hp : password ≠ "")
    (hrole : req.role = some role) (hr : role ≠ "")
    (huri : env.getDataUri req.file = .ok (some fileUri))
    (hupload : env.upload fileUri.content = .error e) :
    register env store req = { store := store, response := none } := by
  simp [register, hfullname, hemail, hphone, hpassword, hrole, truthy_some hf,
    truthy_some he, truthy_some hn, truthy_some hp, truthy_some hr, huri, hupload, loggedOnly]

/-- C10 at its failing inputs: with the database lookup throwing, a complete login request
and a complete register request both end without any reply, while googleAuth and
updateProfile under the same failure reply 500 with success false and a message. -/
theorem silent_handlers_when_lookup_throws :
    (login dbDownEnv [ann] ⟨some "a@x.com", some "pw1", some "student"⟩).response = none ∧
      (register dbDownEnv []
        ⟨some "Bo", some "b@x.com", some "777", some "pw2", some "recruiter",
          some ⟨"bo.png"⟩⟩).response = none ∧
      (googleAuth dbDownEnv [ann] ⟨some "good", some "student"⟩).response = some
        { status := 500
          cookies := []
          body := [("success", .bool false), ("message", .str "Google login failed.")] } ∧
      (updateProfile dbDownEnv [ann]
        ⟨1, none, none, none, some "x", none, none, none⟩).response = some
        { status := 500
          cookies := []
          body := [("success", .bool false), ("message", .str "Server error")] } := by
  decide

/-! ## Resume upload failures -/

theorem updateResume_fails (env : Env) (store : Store) (user : User) (f : File)
    (hfail :
      (∃ fileUri, env.getDataUri (some f) = .ok fileUri ∧
        (fileUri.bind fun d => truthy d.content) = none) ∨
      (∃ fileUri content e, env.getDataUri (some f) = .ok fileUri ∧
        (fileUri.bind fun d => truthy d.content) = some content ∧
        env.upload (some content) = .error e)) :
    ∃ message, message ∈ ["Could not create Data‑URI", "Resume upload failed"] ∧
      updateResume env store user (some f) =
        { store := store
          response := some (jsonResponse 500
            [("success", .bool false), ("message", .str message)]) } := by
  rcases hfail with ⟨fileUri, hd, hc⟩ | ⟨fileUri, content, e, hd, hc, hu⟩
  · exact ⟨"Could not create Data‑URI", by simp, by simp [updateResume, hd, hc]⟩
  · exact ⟨"Resume upload failed", by simp, by simp [updateResume, hd, hc, hu]⟩

/-- C11: for a stored user u and an updateProfile request for u's id that carries a resume
file, if the data-URI conversion yields no content or the upload throws, the reply is 500
with success false and a message, and the collection is exactly what it was, so u is still
the stored document and no field of the request is persisted. -/
theorem updateProfile_resume_failure (env : Env) (store : Store) (req : UpdateReq) (u : User)
    (f : File)
    (hid : lookupId store req.id = some u)
    (hfile : req.file = some f)
    (hfail :
      (∃ fileUri, env.getDataUri (some f) = .ok fileUri ∧
        (fileUri.bind fun d => truthy d.content) = none) ∨
      (∃ fileUri content e, env.getDataUri (some f) = .ok fileUri ∧
        (fileUri.bind fun d => truthy d.content) = some content ∧
        env.upload (some content) = .error e)) :
    ∃ message,
      message ∈ ["Server error", "Could not create Data‑URI", "Resume upload failed"] ∧
      (updateProfile env store req).response = some
        { status := 500
          cookies := []
          body := [("success", .bool false), ("message", .str message)] } ∧
      (updateProfile env store req).store = store ∧
      lookupId (updateProfile env store req).store req.id = some u := by
  have key : ∃ message,
      message ∈ ["Server error", "Could not create Data‑URI", "Resume upload failed"] ∧
      updateProfile env store req =
        { store := store
          response := some (jsonResponse 500
            [("success", .bool false), ("message", .str message)]) } := by
    have hres : ∀ user, ∃ message,
        message ∈ ["Server error", "Could not create Data‑URI", "Resume upload failed"] ∧
        updateResume env store user (some f) =
          { store := store
            response := some (jsonResponse 500
              [("success", .bool false), ("message", .str message)]) } := by
      intro user
      obtain ⟨m, hm, hrun⟩ := updateResume_fails env store user f hfail
      exact ⟨m, List.mem_cons_of_mem _ hm, hrun⟩
    unfold updateProfile User.findById
    cases hdb : env.dbThrows .findById with
    | true => exact ⟨"Server error", by simp, by simp [serverError]⟩
    | false =>
      simp only [hid, hfile, Bool.false_eq_true, if_false]
      cases hp : truthy req.password with
      | none => exact hres _
      | some password =>
        by_cases ht : jsTrim password ≠ ""
        · simp only [if_pos ht]
          cases hh : env.hash password with
          | error e => exact ⟨"Server error", by simp, by simp [serverError]⟩
          | ok hashed => exact hres _
        · simp only [if_neg ht]
          exact hres _
  obtain ⟨m, hm, hrun⟩ := key
  refine ⟨m, hm, ?_, ?_, ?_⟩
  · rw [hrun]; rfl
  · rw [hrun]
  · rw [hrun]; exact hid

/-- C11 at Ann's account with a new fullname, a new bio and a resume whose upload throws. -/
theorem updateProfile_resume_failure_witness :
    ∃ message,
      message ∈ ["Server error", "Could not create Data‑URI", "Resume upload failed"] ∧
      (updateProfile uploadDownEnv [ann, bo]
        ⟨1, some "Ann B", none, none, some "x", none, none, some ⟨"cv.pdf"⟩⟩).response = some
        { status := 500
          cookies := []
          body := [("success", .bool false), ("message", .str message)] } ∧
      (updateProfile uploadDownEnv [ann, bo]
        ⟨1, some "Ann B", none, none, some "x", none, none, some ⟨"cv.pdf"⟩⟩).store
        = [ann, bo] ∧
      lookupId (updateProfile uploadDownEnv [ann, bo]
        ⟨1, some "Ann B", none, none, some "x", none, none, some ⟨"cv.pdf"⟩⟩).store 1
        = some ann :=
  updateProfile_resume_failure uploadDownEnv [ann, bo]
    ⟨1, some "Ann B", none, none, some "x", none, none, some ⟨"cv.pdf"⟩⟩ ann ⟨"cv.pdf"⟩
    (by decide) rfl
    (Or.inr ⟨some ⟨some "data:cv.pdf"⟩, "data:cv.pdf", "upload failed", rfl, by decide, rfl⟩)

/-- The two failures of C11 evaluated: an upload that throws and a conversion without
content each give their own 500 message and leave both stored documents as they were. -/
theorem resume_failure_examples :
    updateProfile uploadDownEnv [ann, bo]
        ⟨1, some "Ann B", none, none, some "x", none, none, some ⟨"cv.pdf"⟩⟩ =
      { store := [ann, bo]
        response := some
          { status := 500
            cookies := []
            body := [("success", .bool false), ("message", .str "Resume upload failed")] } } ∧
      updateProfile noContentEnv [ann, bo]
        ⟨1, some "Ann B", none, none, some "x", none, none, some ⟨"cv.pdf"⟩⟩ =
      { store := [ann, bo]
        response := some
          { status := 500
            cookies := []
            body := [("success", .bool false),
                     ("message", .str "Could not create Data‑URI")] } } := by
  decide

theorem register_store (env : Env) (store : Store) (req : RegisterReq) :
    (register env store req).store = store ∨
      ∃ user password, (register env store req).store = store ++ [user] ∧
        user._id = nextId store ∧ lookupEmail store user.email = none ∧
        truthy req.password = some password ∧ env.hash password = .ok user.password := by
  unfold register
  split
  · rename_i fullname email phoneNumber password role _ _ _ hpw _
    cases hd : env.getDataUri req.file with
    | error e => left; simp [loggedOnly]
    | ok fileUri =>
      cases fileUri with
      | none => left; simp [loggedOnly]
      | some d =>
        cases hu : env.upload d.content with
        | error e => left; simp [hu, loggedOnly]
        | ok url =>
          cases hdb : env.dbThrows .findOne with
          | true => left; simp [hu, User.findOne, hdb, loggedOnly]
          | false =>
            cases hl : lookupEmail store email with
            | some v => left; simp [hu, User.findOne, hdb, hl]
            | none =>
              cases hh : env.hash password with
              | error e => left; simp [hu, User.findOne, hdb, hl, hh, loggedOnly]
              | ok hashed =>
                cases hc : env.dbThrows .create with
                | true => left; simp [hu, User.findOne, hdb, hl, hh, User.create, hc, loggedOnly]
                | false =>
                  right
                  refine ⟨{ _id := nextId store, fullname := fullname, email := email,
                            phoneNumber := .str phoneNumber, password := hashed, role := role,
                            profile := { bio := none, skills := [], resume := none,
                                         resumeOriginalName := none, profilePhoto := url } },
                    password, ?_, ?_, ?_, hpw, ?_⟩
                  · simp [hu, User.findOne, hdb, hl, hh, User.create, hc]
                  · rfl
                  · exact hl
                  · exact hh
  · left; rfl

theorem googleAuthIssue_store (env : Env) (store : Store) (user : User) :
    (googleAuthIssue env store user).store = store := by
  unfold googleAuthIssue
  split <;> rfl

theorem googleAuth_store (env : Env) (store : Store) (req : GoogleReq) :
    (googleAuth env store req).store = store ∨
      ∃ user, (googleAuth env store req).store = store ++ [user] ∧
        user._id = nextId store ∧ lookupEmail store user.email = none ∧
        env.hash env.randomPassword = .ok user.password := by
  unfold googleAuth
  cases hv : env.verifyIdToken req.token with
  | error e => left; rfl
  | ok payload =>
    simp only
    split
    · rename_i email name _ _
      cases hdb : env.dbThrows .findOne with
      | true => left; simp [User.findOne, hdb, googleAuthCaught]
      | false =>
        cases hl : lookupEmail store email with
        | some v =>
          left
          simp only [User.findOne, hdb, hl, Bool.false_eq_true, if_false]
          split
          · rfl
          · exact googleAuthIssue_store env store v
        | none =>
          cases hh : env.hash env.randomPassword with
          | error e => left; simp [User.findOne, hdb, hl, hh, googleAuthCaught]
          | ok hashed =>
            cases hc : env.dbThrows .create with
            | true => left; simp [User.findOne, hdb, hl, hh, User.create, hc, googleAuthCaught]
            | false =>
              right
              refine ⟨googleUser store name email hashed ((truthy req.role).getD "student")
                payload.picture, ?_, ?_, ?_, ?_⟩
              · simp only [User.findOne, hdb, hl, hh, User.create, hc, Bool.false_eq_true,
                  if_false]
                exact googleAuthIssue_store env _ _
              · rfl
              · exact hl
              · rfl
    · left; rfl

theorem login_store (env : Env) (store : Store) (req : LoginReq) :
    (login env store req).store = store := by
  unfold login User.findOne
  repeat' split
  all_goals rfl

theorem mergeBasic_password (u : User) (req : UpdateReq) :
    (mergeBasic u req).password = u.password := by
  unfold mergeBasic
  cases truthy req.fullname <;> cases truthy req.email <;> cases truthy req.phoneNumber <;>
    cases truthy req.bio <;> cases truthy req.skills <;> rfl

theorem mergeBasic_email (u : User) (req : UpdateReq) :
    (mergeBasic u req).email = (truthy req.email).getD u.email := by
  unfold mergeBasic
  cases truthy req.fullname <;> cases truthy req.email <;> cases truthy req.phoneNumber <;>
    cases truthy req.bio <;> cases truthy req.skills <;> rfl

theorem saveAndReply_store (env : Env) (store : Store) (user : User) :
    (saveAndReply env store user).store = store ∨
      (env.dbThrows .save = false ∧
        (saveAndReply env store user).store = writeBack store user) := by
  unfold saveAndReply User.save
  cases hs : env.dbThrows .save <;> simp [serverError]

theorem updateResume_store (env : Env) (store : Store) (user : User) (file : Option File) :
    (updateResume env store user file).store = store ∨
      ∃ saved : User, env.dbThrows .save = false ∧
        (updateResume env store user file).store = writeBack store saved ∧
        saved._id = user._id ∧ saved.email = user.email ∧
        saved.password = user.password := by
  have hsave : ∀ doc : User, doc._id = user._id → doc.email = user.email →
      doc.password = user.password →
      (saveAndReply env store doc).store = store ∨
        ∃ saved : User, env.dbThrows .save = false ∧
          (saveAndReply env store doc).store = writeBack store saved ∧
          saved._id = user._id ∧ saved.email = user.email ∧
          saved.password = user.password := by
    intro doc h₁ h₂ h₃
    rcases saveAndReply_store env store doc with h | ⟨hs, h⟩
    · exact Or.inl h
    · exact Or.inr ⟨doc, hs, h, h₁, h₂, h₃⟩
  unfold updateResume
  cases file with
  | none => exact hsave user rfl rfl rfl
  | some f =>
    cases hd : env.getDataUri (some f) with
    | error e => left; simp [hd, serverError]
    | ok fileUri =>
      cases hc : (fileUri.bind fun d => truthy d.content) with
      | none => left; simp [hd, hc]
      | some content =>
        cases hu : env.upload (some content) with
        | error e => left; simp [hd, hc, hu]
        | ok url =>
          simp only [hd, hc, hu]
          exact hsave _ rfl rfl rfl

theorem updateProfile_store (env : Env) (store : Store) (req : UpdateReq) :
    (updateProfile env store req).store = store ∨
      ∃ u saved : User, lookupId store req.id = some u ∧ env.dbThrows .save = false ∧
        (updateProfile env store req).store = writeBack store saved ∧
        saved._id = u._id ∧ saved.email = (truthy req.email).getD u.email ∧
        ((saved.password = u.password ∧ ∀ p, truthy req.password = some p → jsTrim p = "") ∨
          ∃ p, truthy req.password = some p ∧ jsTrim p ≠ "" ∧
            env.hash p = .ok saved.password) := by
  unfold updateProfile User.findById
  cases hdb : env.dbThrows .findById with
  | true => left; simp [serverError]
  | false =>
    cases hid : lookupId store req.id with
    | none => left; simp
    | some u =>
      simp only [Bool.false_eq_true, if_false]
      cases hp : truthy req.password with
      | none =>
        simp only
        rcases updateResume_store env store (mergeBasic u req) req.file with
          h | ⟨saved, hs, h, h₁, h₂, h₃⟩
        · exact Or.inl h
        · exact Or.inr ⟨u, saved, rfl, hs, h, h₁.trans (mergeBasic_id u req),
            h₂.trans (mergeBasic_email u req),
            Or.inl ⟨h₃.trans (mergeBasic_password u req), by intro p hp'; cases hp'⟩⟩
      | some password =>
        simp only
        by_cases ht : jsTrim password ≠ ""
        · simp only [if_pos ht]
          cases hh : env.hash password with
          | error e => left; simp [serverError]
          | ok hashed =>
            simp only
            rcases updateResume_store env store
                { mergeBasic u req with password := hashed } req.file with
              h | ⟨saved, hs, h, h₁, h₂, h₃⟩
            · exact Or.inl h
            · exact Or.inr ⟨u, saved, rfl, hs, h, h₁.trans (mergeBasic_id u req),
                h₂.trans (mergeBasic_email u req),
                Or.inr ⟨password, rfl, ht, by rw [h₃]; exact hh⟩⟩
        · simp only [if_neg ht]
          rcases updateResume_store env store (mergeBasic u req) req.file with
            h | ⟨saved, hs, h, h₁, h₂, h₃⟩
          · exact Or.inl h
          · refine Or.inr ⟨u, saved, rfl, hs, h, h₁.trans (mergeBasic_id u req),
              h₂.trans (mergeBasic_email u req),
              Or.inl ⟨h₃.trans (mergeBasic_password u req), ?_⟩⟩
            intro p hp'
            cases hp'
            exact not_not.mp ht

/-! ## Uniqueness of emails -/

theorem lt_nextId (store : Store) : ∀ v ∈ store, v._id < nextId store := by
  induction store with
  | nil => intro v hv; cases hv
  | cons w rest ih =>
    intro v hv
    have hstep : nextId (w :: rest) = max w._id (nextId rest - 1) + 1 := by
      simp [nextId]
    have hrest : nextId rest - 1 + 1 = nextId rest := by
      simp [nextId]
    rcases List.mem_cons.mp hv with rfl | hv
    · omega
    · have := ih v hv
      omega

theorem uniqueIds_append (store : Store) (user : User) (hids : uniqueIds store)
    (hnew : user._id = nextId store) : uniqueIds (store ++ [user]) := by
  unfold uniqueIds at hids ⊢
  rw [List.map_append, List.nodup_append]
  refine ⟨hids, List.nodup_singleton _, ?_⟩
  intro a ha hb
  obtain ⟨v, hv, rfl⟩ := List.mem_map.mp ha
  have hlt := lt_nextId store v hv
  simp at hb
  omega

theorem uniqueEmails_append (store : Store) (user : User) (hemails : uniqueEmails store)
    (hnew : lookupEmail store user.email = none) : uniqueEmails (store ++ [user]) := by
  unfold uniqueEmails at hemails ⊢
  rw [List.map_append, List.nodup_append]
  refine ⟨hemails, List.nodup_singleton _, ?_⟩
  intro a ha hb
  obtain ⟨v, hv, rfl⟩ := List.mem_map.mp ha
  have hne := List.find?_eq_none.mp hnew v hv
  simp at hb hne
  exact hne hb

theorem writeBack_ids (store : Store) (saved : User) :
    (writeBack store saved).map (fun u => u._id) = store.map fun u => u._id := by
  induction store with
  | nil => rfl
  | cons w rest ih =>
    have hmap : writeBack (w :: rest) saved
        = (if w._id = saved._id then saved else w) :: writeBack rest saved := rfl
    rw [hmap, List.map_cons, List.map_cons, ih]
    by_cases hw : w._id = saved._id
    · rw [if_pos hw, hw]
    · rw [if_neg hw]

theorem mem_writeBack (store : Store) (saved v : User) (hv : v ∈ writeBack store saved) :
    v = saved ∨ (v ∈ store ∧ v._id ≠ saved._id) := by
  unfold writeBack at hv
  obtain ⟨w, hw, rfl⟩ := List.mem_map.mp hv
  by_cases h : w._id = saved._id
  · left; rw [if_pos h]
  · right; rw [if_neg h]; exact ⟨hw, h⟩

theorem uniqueEmails_writeBack (store : Store) (saved : User)
    (hids : uniqueIds store) (hemails : uniqueEmails store)
    (hfree : ∀ v ∈ store, v._id ≠ saved._id → v.email ≠ saved.email) :
    uniqueEmails (writeBack store saved) := by
  induction store with
  | nil => exact List.nodup_nil
  | cons w rest ih =>
    have hmap : writeBack (w :: rest) saved
        = (if w._id = saved._id then saved else w) :: writeBack rest saved := rfl
    unfold uniqueIds at hids
    unfold uniqueEmails at hemails
    rw [List.map_cons, List.nodup_cons] at hids hemails
    have hrest : uniqueEmails (writeBack rest saved) :=
      ih hids.2 hemails.2 fun v hv => hfree v (List.mem_cons_of_mem _ hv)
    unfold uniqueEmails at hrest ⊢
    rw [hmap, List.map_cons, List.nodup_cons]
    refine ⟨?_, hrest⟩
    intro hmem
    obtain ⟨v, hv, hve⟩ := List.mem_map.mp hmem
    by_cases hw : w._id = saved._id
    · rw [if_pos hw] at hve
      rcases mem_writeBack rest saved v hv with hvs | ⟨hvr, hvid⟩
      · have hin : v._id ∈ (writeBack rest saved).map (fun u => u._id) :=
          List.mem_map.mpr ⟨v, hv, rfl⟩
        rw [writeBack_ids, hvs, ← hw] at hin
        exact hids.1 hin
      · exact hfree v (List.mem_cons_of_mem _ hvr) hvid hve
    · rw [if_neg hw] at hve
      rcases mem_writeBack rest saved v hv with hvs | ⟨hvr, _⟩
      · rw [hvs] at hve
        exact hfree w (List.mem_cons_self _ _) hw hve.symm
      · exact hemails.1 (List.mem_map.mpr ⟨v, hvr, hve⟩)

theorem uniqueIds_writeBack (store : Store) (saved : User) (hids : uniqueIds store) :
    uniqueIds (writeBack store saved) := by
  unfold uniqueIds at hids ⊢
  rw [writeBack_ids]
  exact hids

theorem updateProfile_keeps_uniqueEmails (env : Env) (store : Store) (req : UpdateReq)
    (hemails : uniqueEmails store) (hids : uniqueIds store)
    (hfree : ∀ email, truthy req.email = some email →
      emailHeldByOther store req.id email = false) :
    uniqueEmails (updateProfile env store req).store ∧
      uniqueIds (updateProfile env store req).store := by
  rcases updateProfile_store env store req with h | ⟨u, saved, hid, _, h, hsid, hsem, _⟩
  · rw [h]; exact ⟨hemails, hids⟩
  · rw [h]
    refine ⟨uniqueEmails_writeBack store saved hids hemails ?_,
      uniqueIds_writeBack store saved hids⟩
    intro v hv hvid hve
    rw [hsid] at hvid
    cases he : truthy req.email with
    | none =>
      rw [hsem, he] at hve
      have hu : u ∈ store := List.mem_of_find?_eq_some hid
      exact hvid (congrArg (fun w => w._id) (List.inj_on_of_nodup_map hemails hv hu hve))
    | some email =>
      rw [hsem, he] at hve
      have hnone := hfree email he
      simp only [emailHeldByOther] at hnone
      have := List.any_eq_false.mp hnone v hv
      rw [lookupId_id hid] at hvid
      simp at this
      exact this hvid hve

/-- From a collection in which no two documents share an email (nor an id), register,
googleAuth, login and logout always leave such a collection, whatever the external calls
do; updateProfile leaves one when the request carries no email or an email that no other
document holds. -/
theorem email_uniqueness_without_collision (env : Env) (store : Store) (rreq : RegisterReq)
    (greq : GoogleReq) (lreq : LoginReq) (ureq : UpdateReq)
    (hemails : uniqueEmails store) (hids : uniqueIds store)
    (hfree : ∀ email, truthy ureq.email = some email →
      emailHeldByOther store ureq.id email = false) :
    (uniqueEmails (register env store rreq).store ∧
        uniqueIds (register env store rreq).store) ∧
      (uniqueEmails (googleAuth env store greq).store ∧
        uniqueIds (googleAuth env store greq).store) ∧
      (uniqueEmails (login env store lreq).store ∧ uniqueIds (login env store lreq).store) ∧
      (uniqueEmails (logout store).store ∧ uniqueIds (logout store).store) ∧
      (uniqueEmails (updateProfile env store ureq).store ∧
        uniqueIds (updateProfile env store ureq).store) := by
  refine ⟨?_, ?_, ?_, ⟨hemails, hids⟩,
    updateProfile_keeps_uniqueEmails env store ureq hemails hids hfree⟩
  · rcases register_store env store rreq with h | ⟨user, _, h, hid, hnew, _, _⟩
    · rw [h]; exact ⟨hemails, hids⟩
    · rw [h]
      exact ⟨uniqueEmails_append store user hemails hnew, uniqueIds_append store user hids hid⟩
  · rcases googleAuth_store env store greq with h | ⟨user, h, hid, hnew, _⟩
    · rw [h]; exact ⟨hemails, hids⟩
    · rw [h]
      exact ⟨uniqueEmails_append store user hemails hnew, uniqueIds_append store user hids hid⟩
  · rw [login_store]; exact ⟨hemails, hids⟩

/-- C12 at its failing input: Ann and Bo are stored with different emails and ids, and a
profile update for Ann carries Bo's email. With the lookup and the save returning, the
reply is 200 and both stored documents now hold Bo's email, so email uniqueness is lost. -/
theorem updateProfile_duplicates_email :
    uniqueEmails [ann, bo] ∧ uniqueIds [ann, bo] ∧
      (updateProfile sampleEnv [ann, bo]
        ⟨1, none, some "b@x.com", none, none, none, none, none⟩).response.map
          (fun r => r.status) = some 200 ∧
      (updateProfile sampleEnv [ann, bo]
        ⟨1, none, some "b@x.com", none, none, none, none, none⟩).store.map
          (fun u => (u._id, u.email)) = [(1, "b@x.com"), (2, "b@x.com")] ∧
      ¬ uniqueEmails (updateProfile sampleEnv [ann, bo]
        ⟨1, none, some "b@x.com", none, none, none, none, none⟩).store := by
  decide

/-- The sibling paths on the same collection: a registration and a Google sign-in that name
a stored email create nothing. -/
theorem create_paths_reject_stored_email :
    (register sampleEnv [ann, bo]
        ⟨some "Cy", some "b@x.com", some "999", some "pw3", some "student",
          some ⟨"cy.png"⟩⟩).store = [ann, bo] ∧
      (googleAuth sampleEnv [ann, bo] ⟨some "good", some "recruiter"⟩).store = [ann, bo] ∧
      (googleAuth sampleEnv [ann, bo] ⟨some "good", some "student"⟩).store = [ann, bo] := by
  decide

/-! ## Stored passwords -/

/-- C13: every password a handler writes is an output of the hash call. register either
leaves the collection alone or appends one user whose password is the hash of the request
password; googleAuth either leaves it alone or appends one user whose password is the hash
of the generated random secret; updateProfile either leaves it alone or writes back the
loaded user with the stored password kept (request password absent, empty or blank after
trimming) or replaced by the hash of the request password; login and logout write
nothing. -/
theorem password_writes_are_hashes (env : Env) (store : Store) (rreq : RegisterReq)
    (greq : GoogleReq) (lreq : LoginReq) (ureq : UpdateReq) :
    ((register env store rreq).store = store ∨
        ∃ user password, (register env store rreq).store = store ++ [user] ∧
          truthy rreq.password = some password ∧ env.hash password = .ok user.password) ∧
      ((googleAuth env store greq).store = store ∨
        ∃ user, (googleAuth env store greq).store = store ++ [user] ∧
          env.hash env.randomPassword = .ok user.password) ∧
      ((updateProfile env store ureq).store = store ∨
        ∃ u saved : User, lookupId store ureq.id = some u ∧
          (updateProfile env store ureq).store = writeBack store saved ∧
          saved._id = u._id ∧
          ((saved.password = u.password ∧
              ∀ p, truthy ureq.password = some p → jsTrim p = "") ∨
            ∃ p, truthy ureq.password = some p ∧ jsTrim p ≠ "" ∧
              env.hash p = .ok saved.password)) ∧
      (login env store lreq).store = store ∧ (logout store).store = store := by
  refine ⟨?_, ?_, ?_, login_store env store lreq, rfl⟩
  · rcases register_store env store rreq with h | ⟨user, password, h, _, _, hp, hh⟩
    · exact Or.inl h
    · exact Or.inr ⟨user, password, h, hp, hh⟩
  · rcases googleAuth_store env store greq with h | ⟨user, h, _, _, hh⟩
    · exact Or.inl h
    · exact Or.inr ⟨user, h, hh⟩
  · rcases updateProfile_store env store ureq with h | ⟨u, saved, hid, _, h, hsid, _, hpw⟩
    · exact Or.inl h
    · exact Or.inr ⟨u, saved, hid, h, hsid, hpw⟩

/-- The writes of C13 evaluated with a hash that prefixes `#`: register stores `#pw3` for
the password `pw3`, googleAuth stores the hashed random secret, updateProfile stores `#new`
for the password `new` and keeps `#pw1` for a password of two spaces. -/
theorem password_writes_examples :
    (register sampleEnv [ann]
        ⟨some "Cy", some "c@x.com", some "999", some "pw3", some "student",
          some ⟨"cy.png"⟩⟩).store.map (fun u => u.password) = ["#pw1", "#pw3"] ∧
      (googleAuth sampleEnv [] ⟨some "good", some "student"⟩).store.map (fun u => u.password)
        = ["#0123456789abcdef01234567"] ∧
      (updateProfile sampleEnv [ann]
        ⟨1, none, none, none, none, none, some "new", none⟩).store.map (fun u => u.password)
        = ["#new"] ∧
      (updateProfile sampleEnv [ann]
        ⟨1, none, none, none, some "x", none, some "  ", none⟩).store.map
          (fun u => (u.password, u.profile.bio)) = [("#pw1", some "x")] := by
  decide

/-- When the hash call never returns its own argument, the password register stores and the
password updateProfile writes over the old one differ from the password in the request. -/
theorem raw_password_not_stored (env : Env) (store : Store) (rreq : RegisterReq)
    (ureq : UpdateReq) (hfix : ∀ p h, env.hash p = .ok h → h ≠ p) :
    (∀ user, (register env store rreq).store = store ++ [user] →
        truthy rreq.password ≠ some user.password) ∧
      ((updateProfile env store ureq).store = store ∨
        ∃ u saved : User, lookupId store ureq.id = some u ∧
          (updateProfile env store ureq).store = writeBack store saved ∧
          (saved.password = u.password ∨ truthy ureq.password ≠ some saved.password)) := by
  constructor
  · intro user hstore hraw
    rcases register_store env store rreq with h | ⟨user', password, h, _, _, hp, hh⟩
    · rw [h] at hstore
      have := congrArg List.length hstore
      simp at this
    · rw [h] at hstore
      have huser : user' = user := by simpa using hstore
      subst huser
      rw [hp] at hraw
      exact hfix password user'.password hh (Option.some.inj hraw).symm
  · rcases updateProfile_store env store ureq with h | ⟨u, saved, hid, _, h, _, _, hpw⟩
    · exact Or.inl h
    · refine Or.inr ⟨u, saved, hid, h, ?_⟩
      rcases hpw with ⟨hkeep, _⟩ | ⟨p, hp, _, hh⟩
      · exact Or.inl hkeep
      · right
        intro hraw
        rw [hp] at hraw
        exact hfix p saved.password hh (Option.some.inj hraw).symm

end JobHunt
